import Mathlib

/-
Verification of pin-github-stars.py: a one-directional sync of a user's
starred GitHub repositories into Pinboard bookmarks.

The script is Python 2.  The embedding below translates its functions
directly:

  - filter_stars            (source lines 114-122)
  - add_bookmark's request construction (lines 51-74)
  - get_most_recent_bookmark / cursor resolution in main (lines 81-91, 174-180)
  - get_github_stars, the page generator (lines 94-111)
  - the publish retry loop in main (lines 190-203)
  - main's page-consumption loop (lines 182-205)

External I/O (HTTP transport, argv, credential files) is modelled by
response values passed in as parameters; everything else follows the
source line by line.  Python-2-specific semantics that matter are
modelled explicitly: string truthiness (None and the empty string are
falsy), and the Python 2 mixed int/str comparison used by the pager's
while-loop condition.
-/

/-- A starred-repository record as consumed from the GitHub JSON:
the five fields the script reads.  description, homepage and language
are nullable in the API; none models JSON null. -/
structure Repo where
  full_name : String
  html_url : String
  description : Option String
  homepage : Option String
  language : Option String
deriving DecidableEq

instance : Inhabited Repo := ⟨⟨"", "", none, none, none⟩⟩

/-- Python 2 str.lower(): ASCII lowercasing, applied character-wise.
Defined over the character list so that it evaluates by kernel
reduction; extensionally this is the standard string lowercasing. -/
def String.pyLower (s : String) : String := String.mk (s.data.map Char.toLower)

/-- Embeds filter_stars (lines 114-122):

  for i in xrange(len(stars)):
      if stars[i]['full_name'].lower() == full_name.lower():
          return stars[:i], True
  return stars, False
-/
def filter_stars : List Repo → String → List Repo × Bool
  | [], _ => ([], false)
  | r :: rest, fn =>
    if r.full_name.pyLower == fn.pyLower then ([], true)
    else
      let t := filter_stars rest fn
      (r :: t.1, t.2)

/-- Constants from lines 47-48 of the source. -/
def SLEEP_TIME : Nat := 3

def MAX_RETRIES : Nat := 10

/-- One Pinboard response to a posts/add call, as observed by main:
the parsed JSON's result_code string and the HTTP status code
(add_bookmark returns r.json(), r.status_code, line 78). -/
structure PBResponse where
  result_code : String
  status : Nat
deriving DecidableEq

/-- How the publish loop for one star ends: exit_with_error inside the
retry loop (fatal, carrying the offending result code, line 198), or
the while-else branch runs and the run proceeds to the next star,
having printed a warning iff the current result code is not "done"
(lines 200-203). -/
inductive PubEnd where
  | fatal (code : String)
  | proceed (warned : Bool)
deriving DecidableEq

def PubEnd.isFatal : PubEnd → Bool
  | .fatal _ => true
  | .proceed _ => false

/-- The while-else branch of the retry loop (lines 200-203): Python runs
it whenever the loop ends without break, which here is whenever
exit_with_error was not reached; rs is the most recent response. -/
def elseBranch (rs : PBResponse) : PubEnd :=
  .proceed (rs.result_code.pyLower != "done")

/-- The retry loop of main (lines 191-203):

  retry = 1
  while s == 429 and retry <= MAX_RETRIES:
      sleep(SLEEP_TIME * retry)
      r, s = add_bookmark(star, pb_api_token)
      if r['result_code'].lower() != 'done':
          exit_with_error(...)
      retry += 1
  else:
      if r['result_code'].lower() != 'done': warn
      sleep(SLEEP_TIME)

resp k is the response of the k-th add_bookmark call for this star
(resp 0 is the initial call made on line 190, resp k the call of the
k-th loop iteration).  fuel counts the remaining allowed iterations,
so fuel = MAX_RETRIES + 1 - retry; the loop guard retry <= MAX_RETRIES
is exactly fuel > 0.  Returned are the backoff sleep durations, in
order, and how the loop ended (the unconditional sleep(SLEEP_TIME) of
the else branch is not a backoff sleep and is not listed). -/
def retryLoopAux (resp : Nat → PBResponse) : Nat → Nat → PBResponse → List Nat × PubEnd
  | 0, _, rs => ([], elseBranch rs)
  | f + 1, retry, rs =>
    if rs.status == 429 then
      let rs2 := resp retry
      if rs2.result_code.pyLower == "done" then
        let t := retryLoopAux resp f (retry + 1) rs2
        (SLEEP_TIME * retry :: t.1, t.2)
      else ([SLEEP_TIME * retry], PubEnd.fatal rs2.result_code)
    else ([], elseBranch rs)

/-- Publishing one star (lines 190-203): the initial add_bookmark call
followed by the bounded retry loop. -/
def publishStar (resp : Nat → PBResponse) : List Nat × PubEnd :=
  retryLoopAux resp MAX_RETRIES 1 (resp 0)

/-- Python truthiness of a nullable string: None and the empty string
are falsy, any other string truthy.  This is the test performed by
"if gh_data['homepage']:" and "if gh_data['language']:" (lines 63, 66). -/
def truthy : Option String → Bool
  | none => false
  | some s => !s.isEmpty

/-- The text appended to the extended field when a homepage is present
(line 64): '\n\nProject homepage: \x7b\x7d'.format(homepage). -/
def homepageNote (h : String) : String := "\n\nProject homepage: " ++ h

/-- The request parameters add_bookmark sends to posts/add (lines 68-74).
auth_token and format are credentials/plumbing and carry no repo data;
the five data-bearing fields are modelled.  extended is an Option
because Python passes the raw description variable, which is None when
the repo description is null and no homepage was appended. -/
structure PBParams where
  description : String
  url : String
  extended : Option String
  tags : String
  replace : String
deriving DecidableEq

/-- The request construction of add_bookmark (lines 62-74):

  description = gh_data['description']
  if gh_data['homepage']:
      description += '\n\nProject homepage: ...'
  tags = 'github-star'
  if gh_data['language']:
      tags = ' '.join((tags, gh_data['language'].lower()))
  params = {description: full_name, url: html_url, extended: description,
            tags: tags, replace: 'no', ...}

Returns none when the construction raises: += on a None description
(TypeError in Python 2) happens exactly when the description is null
and the homepage is truthy. -/
def buildRequest (r : Repo) : Option PBParams :=
  let ext : Option (Option String) :=
    match r.description with
    | some d =>
      if truthy r.homepage then some (some (d ++ homepageNote (r.homepage.getD "")))
      else some (some d)
    | none =>
      if truthy r.homepage then none else some none
  match ext with
  | none => none
  | some e =>
    let tags := if truthy r.language
      then "github-star" ++ " " ++ (r.language.getD "").pyLower
      else "github-star"
    some ⟨r.full_name, r.html_url, e, tags, "no"⟩

/-- A bookmark as returned by the Pinboard posts/recent query; the only
field the script reads is description (line 178). -/
structure Bookmark where
  description : String
deriving DecidableEq

/-- get_most_recent_bookmark (lines 81-91): returns r.json()['posts'] or
None, i.e. None when the posts list is empty. -/
def get_most_recent_bookmark (posts : List Bookmark) : Option (List Bookmark) :=
  if posts.isEmpty then none else some posts

/-- Cursor resolution in main (lines 174-180):

  sort_dir = 'desc'
  most_recent = get_most_recent_bookmark(pb_api_token)
  if most_recent is not None:
      most_recent = most_recent[0]['description']
  else:
      sort_dir = 'asc'

Returns the sort direction and the optional target identifier. -/
def resolveCursor (posts : List Bookmark) : String × Option String :=
  match get_most_recent_bookmark posts with
  | none => ("asc", none)
  | some l => ("desc", some (l.headD ⟨""⟩).description)

/-- The per-page filter step of main (lines 186-187): filter_stars is
applied only when a cursor target exists; hit_most_recent starts False
and is only ever assigned by this step. -/
def applyFilter (most_recent : Option String) (result : List Repo) : List Repo × Bool :=
  match most_recent with
  | none => (result, false)
  | some mr => filter_stars result mr

/-- The inner for-loop of main (lines 188-203): publish each star of the
filtered page in order.  store r k is the Pinboard response to the k-th
add_bookmark call for repo r.  Returns the repos for which add_bookmark
was called, in order, and some code if exit_with_error terminated the
run during one of them. -/
def publishAll (store : Repo → Nat → PBResponse) : List Repo → List Repo × Option String
  | [] => ([], none)
  | r :: rest =>
    let e := publishStar (store r)
    match e.2 with
    | .fatal c => ([r], some c)
    | .proceed _ =>
      let t := publishAll store rest
      (r :: t.1, t.2)

/-- How main's page loop ends: exit_with_error (sys.exit(1)),
sys.exit(0) on hit_most_recent (line 205), or the page sequence is
exhausted and main falls off the end (process exit 0). -/
inductive RunOutcome where
  | fatal
  | exitZero
  | completed
deriving DecidableEq

/-- The exit code of the process for each outcome: exit_with_error calls
sys.exit(1); sys.exit(0) and falling off the end of main exit 0. -/
def exitCode : RunOutcome → Nat
  | .fatal => 1
  | .exitZero => 0
  | .completed => 0

/-- Observable trace of one run of main's page loop: how many pages were
consumed from the generator, which repos add_bookmark was called for
(in order), and how the loop ended. -/
structure RunTrace where
  fetched : Nat
  published : List Repo
  outcome : RunOutcome
deriving DecidableEq

/-- The page-consumption loop of main (lines 183-205):

  for result, status in get_github_stars(...):
      if status != 200: exit_with_error(...)
      if most_recent is not None:
          result, hit_most_recent = filter_stars(result, most_recent)
      for star in result: ... publish with retries ...
      if hit_most_recent: sys.exit(0)

Pages are consumed lazily from the generator, so pages beyond a
terminating one are never fetched; the recursion mirrors that by never
touching the tail once the loop ends. -/
def runPages (store : Repo → Nat → PBResponse) (most_recent : Option String) :
    List (List Repo × Nat) → RunTrace
  | [] => ⟨0, [], .completed⟩
  | pg :: rest =>
    if pg.2 != 200 then ⟨1, [], .fatal⟩
    else
      let fr := applyFilter most_recent pg.1
      let pb := publishAll store fr.1
      if pb.2.isSome then ⟨1, pb.1, .fatal⟩
      else if fr.2 then ⟨1, pb.1, .exitZero⟩
      else
        let t := runPages store most_recent rest
        ⟨1 + t.fetched, pb.1 ++ t.published, t.outcome⟩

/-- A Python 2 value that is either an int or a str: the page and last
variables of get_github_stars start as ints (page = 1, last = 1,
lines 98-99) and become the regex's group strings after the first
link-header parse (page, last = m.groups(), line 111). -/
inductive PyVal where
  | int (n : Nat)
  | str (s : String)
deriving DecidableEq

/-- Python byte-wise lexicographic string comparison (<=) restricted to
the ASCII digit strings produced by the regex groups. -/
def pyCharListLe : List Char → List Char → Bool
  | [], _ => true
  | _ :: _, [] => false
  | a :: as, b :: bs =>
    if a < b then true else if b < a then false else pyCharListLe as bs

def pyStrLe (s t : String) : Bool := pyCharListLe s.data t.data

/-- Python 2 semantics of page <= last: numeric when both are ints,
lexicographic when both are strs, and in Python 2 any int compares
strictly below any str. -/
def pyLe : PyVal → PyVal → Bool
  | .int a, .int b => decide (a ≤ b)
  | .str a, .str b => pyStrLe a b
  | .int _, .str _ => true
  | .str _, .int _ => false

/-- Reads a decimal digit string (as matched by the regex group (\d+))
back as a number.  Defined from first principles so that it evaluates
by kernel reduction. -/
def digitsToNat : List Char → Nat → Nat
  | [], acc => acc
  | c :: cs, acc => digitsToNat cs (acc * 10 + (c.toNat - 48))

def pyStrToNat (s : String) : Nat := digitsToNat s.data 0

/-- Renders a number as its decimal digit string, the form in which page
numbers appear inside a GitHub link header.  The fuel argument only
drives structural recursion; fuel n + 1 always suffices. -/
def natDecimalCore : Nat → Nat → List Char
  | 0, _ => []
  | fuel + 1, n =>
    if n < 10 then [Char.ofNat (48 + n)]
    else natDecimalCore fuel (n / 10) ++ [Char.ofNat (48 + n % 10)]

def natDecimal (n : Nat) : String := String.mk (natDecimalCore (n + 1) n)

/-- The page number actually requested: params['page'] = page sends the
int, or the decimal group string, which the server reads numerically. -/
def pageNum : PyVal → Nat
  | .int n => n
  | .str s => pyStrToNat s

/-- The continuation information of one GitHub response, i.e. the part
of the response headers the generator's control flow depends on
(lines 107-111): no 'link' header at all; a 'link' header on which the
regex page=(\d+)>; rel="next",.*page=(\d+)>; rel="last" finds no match
(the last page, which has only 'first' and 'prev' links); or a match
with its two digit-string groups. -/
inductive LinkInfo where
  | absent
  | presentNoMatch
  | nextLast (next lastPage : String)
deriving DecidableEq

/-- The page generator get_github_stars (lines 94-111):

  page = 1
  last = 1
  while page <= last:
      params['page'] = page
      r = requests.get(...)
      yield r.json(), r.status_code
      if 'link' in r.headers:
          m = re.search(..., r.headers['link'])
          if m is None:
              break
          page, last = m.groups()

srv maps a requested page number to its response's continuation
information (the loop's control flow reads only the headers; bodies and
statuses are yielded through unchanged).  fuel bounds the unrolling so
the definition is total; the Bool reports whether the loop ended of its
own accord within that bound.  Returned is the list of page numbers
fetched, in order. -/
def pagerAux (srv : Nat → LinkInfo) : Nat → PyVal → PyVal → List Nat × Bool
  | 0, _, _ => ([], false)
  | fuel + 1, page, lastPage =>
    if pyLe page lastPage then
      let p := pageNum page
      match srv p with
      | .absent =>
        let t := pagerAux srv fuel page lastPage
        (p :: t.1, t.2)
      | .presentNoMatch => ([p], true)
      | .nextLast nx ls =>
        let t := pagerAux srv fuel (.str nx) (.str ls)
        (p :: t.1, t.2)
    else ([], true)

def pager (srv : Nat → LinkInfo) (fuel : Nat) : List Nat × Bool :=
  pagerAux srv fuel (.int 1) (.int 1)

/-- A ten-page starred listing: for p < 10 the response to page p links
next = p+1 and last = 10; page 10 carries only 'first' and 'prev'
links, so the regex finds no match there. -/
def srvTen : Nat → LinkInfo :=
  fun p => if p < 10 then .nextLast (natDecimal (p + 1)) "10" else .presentNoMatch

/-- A five-page starred listing, same shape with last = 5. -/
def srvFive : Nat → LinkInfo :=
  fun p => if p < 5 then .nextLast (natDecimal (p + 1)) "5" else .presentNoMatch

/-- A Pinboard that always accepts: every add_bookmark call returns
result_code "done" with HTTP 200. -/
def happyStore : Repo → Nat → PBResponse := fun _ _ => ⟨"done", 200⟩

/-- Concrete repos for counterexamples and witnesses.  In a descending
(newest-first) listing [repoA, repoB, repoC], repoA is the most
recently starred. -/
def repoA : Repo := ⟨"alice/alpha", "https://github.com/alice/alpha", some "a", none, none⟩

def repoB : Repo := ⟨"bob/beta", "https://github.com/bob/beta", some "b", none, none⟩

def repoC : Repo := ⟨"carol/gamma", "https://github.com/carol/gamma", some "c", none, none⟩

/-- A publish-response sequence satisfying the premise of claim C2: every
attempt up to and including the final allowed one is rate-limited
(HTTP 429), and the final allowed attempt (the MAX_RETRIES-th retry,
call index 10) carries a non-"done" result code.  The first retry also
carries a non-"done" result code, as a real 429 reply would. -/
def cexResp : Nat → PBResponse :=
  fun k => if k == 0 then ⟨"done", 429⟩ else ⟨"rate limit exceeded", 429⟩

/-- Decidable statement of the premise of claim C2 at cexResp: calls 0
through MAX_RETRIES all return HTTP 429 and the final allowed retry's
result code is not "done". -/
def cexPre : Bool :=
  ((List.range (MAX_RETRIES + 1)).map cexResp).all (fun r => r.status == 429)
    && (cexResp MAX_RETRIES).result_code.pyLower != "done"

/-- A publish-response sequence that stays rate-limited through every
retry but whose rate-limited replies carry result code "done", except
the final allowed retry. -/
def wResp : Nat → PBResponse :=
  fun k => if k < 10 then ⟨"done", 429⟩ else ⟨"too many requests", 429⟩

/-- A Pinboard that rejects every add with HTTP 200 and the result code
it really sends for an existing URL under replace=no. -/
def dupStore : Repo → Nat → PBResponse := fun _ _ => ⟨"item already exists", 200⟩

/-- C3: filter_stars returns the entries strictly before the index of the
first entry whose full_name equals the target case-insensitively, paired
with whether any entry matched; when no entry matches, findIdx is the
length, take returns the full page unchanged and any is false. -/
theorem filter_stars_truncates_at_first_match (stars : List Repo) (full_name : String) :
    filter_stars stars full_name
      = (stars.take (stars.findIdx fun r => r.full_name.pyLower == full_name.pyLower),
         stars.any fun r => r.full_name.pyLower == full_name.pyLower) := by
  induction stars with
  | nil => rfl
  | cons r rest ih =>
    by_cases h : (r.full_name.pyLower == full_name.pyLower) = true
    · simp [filter_stars, List.findIdx_cons, h]
    · simp only [Bool.not_eq_true] at h
      simp [filter_stars, List.findIdx_cons, h, ih, List.take_succ_cons]

/-- One iteration of the retry loop while rate-limited and the retried
call reports "done": sleep, call, keep looping. -/
theorem retryLoopAux_step (resp : Nat → PBResponse) (f retry : Nat) (rs : PBResponse)
    (h429 : rs.status = 429)
    (hdone : (resp retry).result_code.pyLower = "done") :
    retryLoopAux resp (f + 1) retry rs
      = (SLEEP_TIME * retry :: (retryLoopAux resp f (retry + 1) (resp retry)).1,
         (retryLoopAux resp f (retry + 1) (resp retry)).2) := by
  simp [retryLoopAux, h429, hdone]

/-- If the current response is not a 429, the retry loop body never runs
and the while-else branch decides the outcome. -/
theorem retryLoopAux_not_429 (resp : Nat → PBResponse) (f retry : Nat) (rs : PBResponse)
    (h : ((rs.status == 429) : Bool) = false) :
    retryLoopAux resp (f + 1) retry rs = ([], elseBranch rs) := by
  simp [retryLoopAux, h]

/-- A run of the retry loop in which the loop is entered rate-limited,
every retried call up to the last allowed one replies "done" while
still rate-limited, and the last allowed retry replies with a
non-"done" code: the loop sleeps SLEEP_TIME * retryNumber before every
retry and ends in exit_with_error on the final reply. -/
theorem retryLoopAux_all_done_429 (resp : Nat → PBResponse) :
    ∀ (f retry : Nat) (rs : PBResponse), rs.status = 429 →
      (∀ k, retry ≤ k → k < retry + f → resp k = ⟨"done", 429⟩) →
      (resp (retry + f)).result_code.pyLower ≠ "done" →
      retryLoopAux resp (f + 1) retry rs
        = ((List.range (f + 1)).map (fun i => SLEEP_TIME * (retry + i)),
           PubEnd.fatal ((resp (retry + f)).result_code)) := by
  intro f
  induction f with
  | zero =>
    intro retry rs h429 _ hlast
    have hlast' : (resp retry).result_code.pyLower ≠ "done" := by simpa using hlast
    simp [retryLoopAux, h429, hlast', List.range_succ]
  | succ f ih =>
    intro retry rs h429 hmid hlast
    have hr : resp retry = ⟨"done", 429⟩ := hmid retry le_rfl (by omega)
    have hmid' : ∀ k, retry + 1 ≤ k → k < retry + 1 + f → resp k = ⟨"done", 429⟩ :=
      fun k a b => hmid k (by omega) (by omega)
    have hlast' : (resp (retry + 1 + f)).result_code.pyLower ≠ "done" := by
      have e : retry + 1 + f = retry + (f + 1) := by omega
      rw [e]; exact hlast
    have step := retryLoopAux_step resp (f + 1) retry rs h429 (by rw [hr]; decide)
    have tail := ih (retry + 1) (resp retry) (by rw [hr]) hmid' hlast'
    rw [step, tail]
    have e2 : retry + 1 + f = retry + (f + 1) := by omega
    have lists : ((List.range (f + 1 + 1)).map (fun i => SLEEP_TIME * (retry + i)))
        = SLEEP_TIME * retry
            :: ((List.range (f + 1)).map (fun i => SLEEP_TIME * (retry + 1 + i))) := by
      rw [List.range_succ_eq_map, List.map_cons, List.map_map]
      refine congrArg₂ _ (by simp) ?_
      refine List.map_congr_left ?_
      intro i _
      simp only [Function.comp_apply, Nat.succ_eq_add_one]
      ring
    rw [lists, e2]

/-- C1: claimed, for every finite paginated listing whose responses carry
next/last continuation metadata, the generator fetches pages 1..last
exactly once each in increasing order.  On the ten-page listing srvTen
this fails: after page 1 the Python 2 loop condition compares the
regex group strings '2' <= '10' lexicographically, which is false, so
the generator stops having fetched only page 1 (and the loop does end
of its own accord).  The five-page companion theorem below shows the
same code walking 1..5 as the claim expects, isolating the failure to
multi-digit last-page numbers. -/
theorem pager_ten_page_listing_fetches_only_page_one :
    pager srvTen 100 = ([1], true)
      ∧ pager srvTen 100 ≠ ([1, 2, 3, 4, 5, 6, 7, 8, 9, 10], true) := by decide

/-- On a five-page listing every comparison is between single-digit
strings, where lexicographic and numeric order agree, so the generator
visits pages 1..5 exactly once each, in order. -/
theorem pager_five_page_listing_fetches_all :
    pager srvFive 100 = ([1, 2, 3, 4, 5], true) := by decide

/-- C2 counterexample: a publish sequence satisfying the claim's premise
(HTTP 429 on every attempt through the final allowed one, non-"done"
result code on the final allowed attempt) on which the run does NOT
make MAX_RETRIES retries: the first retried reply already carries a
non-"done" result code, so exit_with_error fires after a single retry
and a single backoff sleep. -/
theorem publish_retry_early_fatal_counterexample :
    cexPre = true
      ∧ publishStar cexResp = ([3], PubEnd.fatal "rate limit exceeded")
      ∧ (publishStar cexResp).1.length ≠ MAX_RETRIES := by decide

/-- C2 amended: if the store replies 429 to the initial attempt, every
retried reply before the final allowed one is 429 with result code
"done", and the final allowed retry's result code is not "done", then
the run terminates fatally exactly after MAX_RETRIES retry attempts,
having slept SLEEP_TIME * attemptNumber (3, 6, ..., 30: strictly
increasing) before each retry. -/
theorem publish_retry_exhaustion_fatal (resp : Nat → PBResponse)
    (h0 : (resp 0).status = 429)
    (hmid : ∀ k, 1 ≤ k → k < MAX_RETRIES → resp k = ⟨"done", 429⟩)
    (hlast : (resp MAX_RETRIES).result_code.pyLower ≠ "done") :
    publishStar resp
      = ([3, 6, 9, 12, 15, 18, 21, 24, 27, 30],
         PubEnd.fatal ((resp MAX_RETRIES).result_code))
      ∧ List.Chain' (· < ·) ([3, 6, 9, 12, 15, 18, 21, 24, 27, 30] : List Nat) := by
  have key := retryLoopAux_all_done_429 resp 9 1 (resp 0) h0
    (fun k a b => hmid k a b) hlast
  have e1 : publishStar resp = retryLoopAux resp (9 + 1) 1 (resp 0) := rfl
  have e2 : ((List.range (9 + 1)).map (fun i => SLEEP_TIME * (1 + i)))
      = [3, 6, 9, 12, 15, 18, 21, 24, 27, 30] := by decide
  refine ⟨?_, by simp [List.chain'_cons]⟩
  rw [e1, key, e2]
  rfl

/-- C2 witness: the amended premise is satisfiable and the conclusion
holds on a concrete sequence that stays rate-limited with "done"
result codes until the final allowed retry replies "too many
requests". -/
theorem publish_retry_exhaustion_fatal_witness :
    publishStar wResp
      = ([3, 6, 9, 12, 15, 18, 21, 24, 27, 30],
         PubEnd.fatal ((wResp MAX_RETRIES).result_code))
      ∧ List.Chain' (· < ·) ([3, 6, 9, 12, 15, 18, 21, 24, 27, 30] : List Nat) :=
  publish_retry_exhaustion_fatal wResp (by decide)
    (fun k _ h2 => by
      have hk : k < 10 := h2
      simp [wResp, hk])
    (by decide)

/-- C4: when the store query for the most recent marker-tagged bookmark
returns none (empty posts list), the run uses ascending sort direction
and no target identifier, and with no target no page is ever filtered;
when it returns a bookmark, the run uses descending sort direction
with that bookmark's description field as the target identifier. -/
theorem cursor_resolution_directions :
    resolveCursor [] = ("asc", none)
      ∧ (∀ (b : Bookmark) (rest : List Bookmark),
          resolveCursor (b :: rest) = ("desc", some b.description))
      ∧ (∀ page : List Repo, applyFilter none page = (page, false)) :=
  ⟨rfl, fun _ _ => rfl, fun _ => rfl⟩

/-- C7: a publish attempt whose initial response is not a 429 and whose
result code is not "done" ends with only a warning (the while-else
branch, with the warning printed), and the outer loop proceeds to the
remaining starred repos; it never terminates the run. -/
theorem non_rate_limited_non_done_warns_and_continues
    (store : Repo → Nat → PBResponse) (r0 : Repo) (rest : List Repo)
    (h1 : (store r0 0).status ≠ 429)
    (h2 : (store r0 0).result_code.pyLower ≠ "done") :
    publishStar (store r0) = ([], PubEnd.proceed true)
      ∧ publishAll store (r0 :: rest)
          = (r0 :: (publishAll store rest).1, (publishAll store rest).2) := by
  have hb : (((store r0 0).status == 429) : Bool) = false := by
    simp [h1]
  have hp : publishStar (store r0) = ([], elseBranch (store r0 0)) :=
    retryLoopAux_not_429 (store r0) 9 1 (store r0 0) hb
  have he : elseBranch (store r0 0) = PubEnd.proceed true := by
    simp [elseBranch, h2]
  refine ⟨hp.trans (by rw [he]), ?_⟩
  simp [publishAll, hp, he]

/-- C7 witness: a store answering HTTP 200 with result code "item
already exists" only warns, and publishing continues with the rest of
the page. -/
theorem non_rate_limited_non_done_warns_and_continues_witness :
    publishStar (dupStore repoA) = ([], PubEnd.proceed true)
      ∧ publishAll dupStore [repoA, repoB]
          = (repoA :: (publishAll dupStore [repoB]).1, (publishAll dupStore [repoB]).2) :=
  non_rate_limited_non_done_warns_and_continues dupStore repoA [repoB]
    (by decide) (by decide)

/-- C8 counterexample: a starred repo with a null description and a
homepage produces no bookmark creation request at all (the
construction of the extended field raises), so the claimed field
mapping does not hold of every starred-repo record. -/
theorem bookmark_request_not_built_counterexample :
    buildRequest ⟨"erin/epsilon", "https://github.com/erin/epsilon", none,
        some "https://epsilon.example", none⟩ = none := by decide

/-- C8 amended: for every starred-repo record whose description is
non-null whenever its homepage is present (non-null and non-empty,
the code's presence test), the bookmark creation request maps
full_name to description, html_url to url, the repo description (with
the homepage note appended exactly when the homepage is present) to
extended, the marker tag joined with the lowercased language exactly
when a language is present to tags, and sets replace to no. -/
theorem bookmark_request_field_mapping (r : Repo)
    (h : truthy r.homepage = true → r.description.isSome) :
    buildRequest r = some ⟨r.full_name, r.html_url,
      (if truthy r.homepage
        then some (r.description.getD "" ++ homepageNote (r.homepage.getD ""))
        else r.description),
      (if truthy r.language
        then "github-star" ++ " " ++ (r.language.getD "").pyLower
        else "github-star"),
      "no"⟩ := by
  cases hd : r.description with
  | some d =>
    by_cases hh : truthy r.homepage
    · simp [buildRequest, hd, hh]
    · simp [buildRequest, hd, hh]
  | none =>
    by_cases hh : truthy r.homepage
    · exact absurd (h hh) (by simp [hd])
    · simp [buildRequest, hd, hh]

/-- C8 witness: the field mapping evaluated on a repo carrying a
description, a homepage and a language. -/
theorem bookmark_request_field_mapping_witness :
    buildRequest ⟨"dora/delta", "https://github.com/dora/delta", some "a tool",
        some "https://delta.example", some "Python"⟩
      = some ⟨"dora/delta", "https://github.com/dora/delta",
          some ("a tool" ++ homepageNote "https://delta.example"),
          "github-star" ++ " " ++ "python", "no"⟩ := by
  rw [bookmark_request_field_mapping
    ⟨"dora/delta", "https://github.com/dora/delta", some "a tool",
        some "https://delta.example", some "Python"⟩ (fun _ => rfl)]
  decide

/-- C9: a page carrying a non-200 HTTP status makes the run terminate
fatally (exit code 1, hence non-zero) with nothing published from that
page and no further page fetched, whatever the remaining pages are. -/
theorem non_success_page_status_fatal (store : Repo → Nat → PBResponse)
    (most_recent : Option String) (page : List Repo) (status : Nat)
    (rest : List (List Repo × Nat)) (h : status ≠ 200) :
    runPages store most_recent ((page, status) :: rest) = ⟨1, [], .fatal⟩
      ∧ exitCode (runPages store most_recent ((page, status) :: rest)).outcome = 1 := by
  have e : runPages store most_recent ((page, status) :: rest) = ⟨1, [], .fatal⟩ := by
    simp [runPages, h]
  exact ⟨e, by rw [e]; rfl⟩

/-- C9 witness: a 500-status page aborts the run at once. -/
theorem non_success_page_status_fatal_witness :
    runPages happyStore none [([repoA], 500)] = ⟨1, [], .fatal⟩
      ∧ exitCode (runPages happyStore none [([repoA], 500)]).outcome = 1 :=
  non_success_page_status_fatal happyStore none [repoA] 500 [] (by decide)

/-- C10: for every starred-repo record whose description is null while
its homepage is present (non-null and non-empty, the code's presence
test), building the bookmark request is not total: the += on the None
description raises, so no request is produced and publish cannot
succeed for such a repo. -/
theorem null_description_with_homepage_not_total (r : Repo)
    (h1 : r.description = none) (h2 : truthy r.homepage = true) :
    buildRequest r = none := by
  simp [buildRequest, h1, h2]

/-- C10 witness: the crash case evaluated on a concrete repo. -/
theorem null_description_with_homepage_not_total_witness :
    buildRequest ⟨"frank/phi", "https://github.com/frank/phi", none,
        some "https://phi.example", some "C"⟩ = none :=
  null_description_with_homepage_not_total
    ⟨"frank/phi", "https://github.com/frank/phi", none,
        some "https://phi.example", some "C"⟩ rfl (by decide)

/-- A publish attempt whose very first response is "done" with
HTTP 200 skips the retry loop and proceeds without warning. -/
theorem publishStar_done200 (resp : Nat → PBResponse)
    (h : resp 0 = ⟨"done", 200⟩) :
    publishStar resp = ([], PubEnd.proceed false) := by
  have hb : (((resp 0).status == 429) : Bool) = false := by rw [h]; rfl
  calc publishStar resp
      = ([], elseBranch (resp 0)) := retryLoopAux_not_429 resp 9 1 (resp 0) hb
    _ = ([], PubEnd.proceed false) := by rw [h]; rfl

/-- If no star of the page triggers exit_with_error, the inner loop
publishes every star of the page, in page order. -/
theorem publishAll_of_no_fatal (store : Repo → Nat → PBResponse) (l : List Repo)
    (h : ∀ r ∈ l, (publishStar (store r)).2.isFatal = false) :
    publishAll store l = (l, none) := by
  induction l with
  | nil => rfl
  | cons r rest ih =>
    have hr := h r (List.mem_cons_self r rest)
    have hrest : ∀ x ∈ rest, (publishStar (store x)).2.isFatal = false :=
      fun x hx => h x (List.mem_cons_of_mem r hx)
    cases hE : (publishStar (store r)).2 with
    | fatal c => rw [hE] at hr; simp [PubEnd.isFatal] at hr
    | proceed w => simp [publishAll, hE, ih hrest]

/-- Against an always-accepting store, every star of the page is
published in order. -/
theorem publishAll_happy (store : Repo → Nat → PBResponse)
    (h : ∀ r k, store r k = ⟨"done", 200⟩) (l : List Repo) :
    publishAll store l = (l, none) := by
  refine publishAll_of_no_fatal store l ?_
  intro r _
  rw [publishStar_done200 (store r) (h r 0)]
  rfl

/-- A run with no cursor target over 200-status pages against an
always-accepting store publishes every page's every entry, in order,
and completes by exhausting the listing. -/
theorem runPages_none_happy (store : Repo → Nat → PBResponse)
    (h : ∀ r k, store r k = ⟨"done", 200⟩) (pages : List (List Repo)) :
    runPages store none (pages.map (fun p => (p, 200)))
      = ⟨pages.length, pages.flatten, .completed⟩ := by
  induction pages with
  | nil => rfl
  | cons p ps ih =>
    simp [runPages, applyFilter, publishAll_happy store h p, ih,
      List.flatten_cons, Nat.add_comm]

/-- C5: whenever filter_stars reports found = true on a 200-status page
and publishing its survivors triggers no fatal store error, the run
publishes exactly the surviving entries in page order and then calls
sys.exit(0) at once: one page consumed, whatever pages remain
upstream. -/
theorem found_page_publishes_survivors_then_done
    (store : Repo → Nat → PBResponse) (mr : String) (page : List Repo)
    (rest : List (List Repo × Nat))
    (hfound : (filter_stars page mr).2 = true)
    (hok : ∀ r ∈ (filter_stars page mr).1, (publishStar (store r)).2.isFatal = false) :
    runPages store (some mr) ((page, 200) :: rest)
      = ⟨1, (filter_stars page mr).1, .exitZero⟩
      ∧ exitCode (runPages store (some mr) ((page, 200) :: rest)).outcome = 0 := by
  have hpub := publishAll_of_no_fatal store _ hok
  have e : runPages store (some mr) ((page, 200) :: rest)
      = ⟨1, (filter_stars page mr).1, .exitZero⟩ := by
    simp [runPages, applyFilter, hpub, hfound]
  exact ⟨e, by rw [e]; rfl⟩

/-- C5 witness: the boundary repo sits in the middle of page one; the
run publishes only the entry before it and exits 0 without touching
the second page. -/
theorem found_page_publishes_survivors_then_done_witness :
    runPages happyStore (some "bob/beta")
        [([repoA, repoB, repoC], 200), ([repoC], 200)]
      = ⟨1, [repoA], .exitZero⟩
      ∧ exitCode (runPages happyStore (some "bob/beta")
          [([repoA, repoB, repoC], 200), ([repoC], 200)]).outcome = 0 :=
  found_page_publishes_survivors_then_done happyStore "bob/beta"
    [repoA, repoB, repoC] [([repoC], 200)] (by decide) (by decide)

/-- C6 counterexample: an incremental run 1 over the descending listing
[repoA, repoB, repoC] with prior boundary repoC publishes repoA then
repoB, so its last-created marker bookmark is repoB; run 2 over the
same upstream listing with that bookmark as its cursor publishes
repoA again, not zero bookmarks. -/
theorem second_run_republishes_counterexample :
    (runPages happyStore (some repoC.full_name)
        [([repoA, repoB, repoC], 200)]).published = [repoA, repoB]
      ∧ (runPages happyStore (some repoB.full_name)
          [([repoA, repoB, repoC], 200)]).published = [repoA]
      ∧ (runPages happyStore (some repoB.full_name)
          [([repoA, repoB, repoC], 200)]).published.length ≠ 0 := by decide

/-- C6 amended: when run 1 is a first run (no marker-tagged bookmark, so
ascending order with no target), it publishes the whole chronological
star list and completes; a second run that resumes from the bookmark
run 1 created last — the newest star, which heads the descending
listing run 2 fetches — publishes zero bookmarks and exits 0. -/
theorem first_run_then_rerun_publishes_nothing
    (store1 store2 : Repo → Nat → PBResponse)
    (h1 : ∀ r k, store1 r k = ⟨"done", 200⟩)
    (stars : List Repo) (hne : stars ≠ [])
    (pages1 : List (List Repo)) (hp : pages1.flatten = stars)
    (q1 : List Repo) (rest2 : List (List Repo × Nat))
    (hq : q1.head? = stars.reverse.head?) (hq1ne : q1 ≠ []) :
    runPages store1 none (pages1.map (fun p => (p, 200)))
        = ⟨pages1.length, stars, .completed⟩
      ∧ (runPages store2 (some (stars.getLastD default).full_name)
          ((q1, 200) :: rest2)).published = []
      ∧ (runPages store2 (some (stars.getLastD default).full_name)
          ((q1, 200) :: rest2)).outcome = .exitZero := by
  have run1 : runPages store1 none (pages1.map (fun p => (p, 200)))
      = ⟨pages1.length, stars, .completed⟩ := by
    rw [runPages_none_happy store1 h1 pages1, hp]
  refine ⟨run1, ?_⟩
  obtain ⟨L, t, rfl⟩ : ∃ L t, q1 = L :: t := by
    cases q1 with
    | nil => exact absurd rfl hq1ne
    | cons L t => exact ⟨L, t, rfl⟩
  have hL : L = stars.getLastD default := by
    have e1 : stars.reverse.head? = stars.getLast? := List.head?_reverse stars
    have e2 : stars.getLast? = some (stars.getLast hne) :=
      List.getLast?_eq_getLast stars hne
    have e3 : stars.getLastD default = stars.getLast hne := by
      rw [List.getLastD_eq_getLast? default stars, e2]; rfl
    have hsome : some L = some (stars.getLast hne) := hq.trans (e1.trans e2)
    rw [e3]
    exact Option.some.inj hsome
  subst hL
  have hfilterAll : ∀ (x : Repo) (xs : List Repo),
      filter_stars (x :: xs) x.full_name = ([], true) :=
    fun x xs => by simp [filter_stars]
  have e : runPages store2 (some (stars.getLastD default).full_name)
      ((stars.getLastD default :: t, 200) :: rest2) = ⟨1, [], .exitZero⟩ := by
    simp [runPages, applyFilter, hfilterAll, publishAll]
  rw [e]
  exact ⟨rfl, rfl⟩

/-- C6 witness: a first run over the two-star chronological listing
publishes both stars; the rerun, resuming from the newest star at the
head of the descending listing, publishes nothing and exits 0. -/
theorem first_run_then_rerun_publishes_nothing_witness :
    runPages happyStore none [([repoA], 200), ([repoB], 200)]
        = ⟨2, [repoA, repoB], .completed⟩
      ∧ (runPages happyStore (some repoB.full_name)
          [([repoB, repoA], 200)]).published = []
      ∧ (runPages happyStore (some repoB.full_name)
          [([repoB, repoA], 200)]).outcome = .exitZero :=
  first_run_then_rerun_publishes_nothing happyStore happyStore (fun _ _ => rfl)
    [repoA, repoB] (by decide) [[repoA], [repoB]] (by decide) [repoB, repoA] []
    (by decide) (by decide)
